import Mathlib

/-!
# Verification of the ithapp telemetry server (`server.js` and its variants)

Shallow embedding of the telemetry ingestion and device-identity pipeline of
the repository: EUI normalization, reading validation, device registry
resolve-or-create, the two sensor-metadata update endpoints, the downlink
relay and the health probe.  JavaScript values arriving in JSON bodies are
modelled by `JSVal` (JSON has no NaN/Infinity, so numbers are rationals);
absent-or-null JSON fields are modelled by `Option`; the MySQL tables
`sensores` and `mediciones` are modelled by lists of records inside `DB`,
with the UNIQUE constraint on `sensores.dev_eui` checked explicitly by the
insert/update operations that touch that column.
-/

set_option autoImplicit false

/-- A JSON-decoded JavaScript value as it reaches the handlers.  `vnull`
stands for `null`/`undefined`/anything that is not a number or a string;
for every guard in the source (`typeof x !== "number"`) all such values
behave alike. -/
inductive JSVal where
  | num (q : ℚ)
  | str (s : String)
  | vnull
  deriving DecidableEq, Repr

/-- JavaScript truthiness of an optional string (`null`/`undefined` and the
empty string are falsy). -/
def truthyStr : Option String → Bool
  | none => false
  | some s => s ≠ ""

/-- `jsStr o = some s` exactly when the raw optional string `o` is truthy in
JavaScript; used to mirror `if (!x)` guards on string-valued body fields. -/
def jsStr : Option String → Option String
  | none => none
  | some s => if s = "" then none else some s

/-- `jsNat o = some n` exactly when the raw optional numeric id `o` is truthy
in JavaScript (`0` is falsy); mirrors `if (!id_sensor)` guards. -/
def jsNat : Option Nat → Option Nat
  | none => none
  | some n => if n = 0 then none else some n

/-- First-truthy-wins, mirroring the JavaScript `a || b` fallback chain on
optional strings. -/
def jsOrStr (a b : Option String) : Option String :=
  if truthyStr a then a else if truthyStr b then b else none

/-- ASCII uppercase of one character; embeds what both JavaScript
`toUpperCase()` and MySQL `UPPER()` do on the ASCII range (device EUIs and
the hex filter only ever keep ASCII, so this is extensionally adequate). -/
def jsUpper (c : Char) : Char :=
  if 97 ≤ c.toNat ∧ c.toNat ≤ 122 then Char.ofNat (c.toNat - 32) else c

/-- The character class `[0-9A-F]` of the normalizer's regular expression. -/
def isHexDigitUpper (c : Char) : Bool :=
  (48 ≤ c.toNat && c.toNat ≤ 57) || (65 ≤ c.toNat && c.toNat ≤ 70)

/-- `String(raw).toUpperCase().replace(/[^0-9A-F]/g, "")` at the character
list level: uppercase every character, keep only `[0-9A-F]`. -/
def hexFilter (l : List Char) : List Char :=
  (l.map jsUpper).filter isHexDigitUpper

/-- Uppercase a whole string (JavaScript `toUpperCase()` / MySQL `UPPER()`
on the ASCII range). -/
def jsUpperStr (s : String) : String :=
  String.mk (s.data.map jsUpper)

/-- ASCII whitespace removed by JavaScript `trim()` / SQL `TRIM()` on the
inputs this server sees. -/
def isWhitespaceChar (c : Char) : Bool :=
  c == ' ' || c == '\t' || c == '\n' || c == '\r'

/-- `trim()`: strip leading and trailing whitespace. -/
def jsTrim (s : String) : String :=
  String.mk (((s.data.dropWhile isWhitespaceChar).reverse.dropWhile isWhitespaceChar).reverse)

/-- `String(x).trim().toUpperCase()` (and SQL `UPPER(TRIM(x))`). -/
def jsTrimUpper (s : String) : String :=
  jsUpperStr (jsTrim s)

/-- `normalizarDevEui` from the validating variant of `server.js`:
`if (!raw) return null; return String(raw).toUpperCase().replace(/[^0-9A-F]/g, "")`. -/
def normalizarDevEui : Option String → Option String
  | none => none
  | some s => if s = "" then none else some (String.mk (hexFilter s.data))

/-- `lecturaValida(t, h, i)` from the validating variant of `server.js`:
three `typeof`-and-range guards, rejecting on the first failure. -/
def lecturaValida (t h i : JSVal) : Bool :=
  match t with
  | .num tv =>
    if tv < -40 ∨ tv > 85 then false
    else
      match h with
      | .num hv =>
        if hv < 0 ∨ hv > 100 then false
        else
          match i with
          | .num iv =>
            if iv < 0 ∨ iv > 120 then false
            else true
          | _ => false
      | _ => false
  | _ => false

/- ### Helper lemmas about the normalizer -/

theorem jsUpper_fixed_of_hex {c : Char} (h : isHexDigitUpper c = true) :
    jsUpper c = c := by
  unfold isHexDigitUpper at h
  unfold jsUpper
  rw [if_neg]
  intro hc
  simp only [Bool.or_eq_true, Bool.and_eq_true, decide_eq_true_eq] at h
  omega

theorem hexFilter_idem (l : List Char) : hexFilter (hexFilter l) = hexFilter l := by
  induction l with
  | nil => rfl
  | cons c l ih =>
    unfold hexFilter at *
    simp only [List.map_cons, List.filter_cons]
    by_cases hc : isHexDigitUpper (jsUpper c) = true
    · rw [if_pos hc]
      simp only [List.map_cons, List.filter_cons]
      rw [jsUpper_fixed_of_hex hc, if_pos hc, ih]
    · rw [if_neg hc, ih]

theorem lecturaValida_num (tv hv iv : ℚ) :
    lecturaValida (.num tv) (.num hv) (.num iv) = true ↔
      (-40 ≤ tv ∧ tv ≤ 85 ∧ 0 ≤ hv ∧ hv ≤ 100 ∧ 0 ≤ iv ∧ iv ≤ 120) := by
  simp only [lecturaValida]
  split_ifs with h1 h2 h3
  · simp only [false_iff]
    rintro ⟨a1, a2, b1, b2, c1, c2⟩
    rcases h1 with h1 | h1 <;> linarith
  · simp only [false_iff]
    rintro ⟨a1, a2, b1, b2, c1, c2⟩
    rcases h2 with h2 | h2 <;> linarith
  · simp only [false_iff]
    rintro ⟨a1, a2, b1, b2, c1, c2⟩
    rcases h3 with h3 | h3 <;> linarith
  · push_neg at h1 h2 h3
    simp only [true_iff]
    exact ⟨h1.1, h1.2, h2.1, h2.2, h3.1, h3.2⟩

/-- C5: `lecturaValida` accepts a triple iff all three values are numeric and
temperature ∈ [-40, 85], humidity ∈ [0, 100], ITH ∈ [0, 120]; the spec's
example and boundary triples behave as stated. -/
theorem C5_lecturaValida_spec :
    (∀ t h i : JSVal, lecturaValida t h i = true ↔
      ∃ tv hv iv : ℚ, t = .num tv ∧ h = .num hv ∧ i = .num iv ∧
        -40 ≤ tv ∧ tv ≤ 85 ∧ 0 ≤ hv ∧ hv ≤ 100 ∧ 0 ≤ iv ∧ iv ≤ 120) ∧
    lecturaValida (.num 25) (.num 60) (.num 70) = true ∧
    lecturaValida (.num (-41)) (.num 50) (.num 50) = false ∧
    lecturaValida (.str "hot") (.num 50) (.num 50) = false ∧
    lecturaValida (.num 85) (.num 100) (.num 120) = true ∧
    lecturaValida (.num 85.1) (.num 100) (.num 120) = false := by
  refine ⟨?_, by decide, by decide, by decide, by decide, by norm_num [lecturaValida]⟩
  intro t h i
  cases t with
  | num tv =>
    cases h with
    | num hv =>
      cases i with
      | num iv =>
        rw [lecturaValida_num]
        constructor
        · rintro ⟨a1, a2, b1, b2, c1, c2⟩
          exact ⟨tv, hv, iv, rfl, rfl, rfl, a1, a2, b1, b2, c1, c2⟩
        · rintro ⟨tv2, hv2, iv2, ht, hh, hi, bounds⟩
          cases ht; cases hh; cases hi
          exact bounds
      | str s => simp [lecturaValida]
      | vnull => simp [lecturaValida]
    | str s => simp [lecturaValida]
    | vnull => simp [lecturaValida]
  | str s => simp [lecturaValida]
  | vnull => simp [lecturaValida]

/-- C6 (counterexample): the normalizer is not idempotent on every input.
The truthy input `"::"` normalizes to the empty string, but normalizing the
empty string yields `null` (`!raw` is true for `""`), so the double
application differs from the single one. -/
theorem C6_normalizarDevEui_not_idem :
    normalizarDevEui (normalizarDevEui (some "::")) ≠ normalizarDevEui (some "::") := by
  decide

/-- C6 (amended): the normalizer is idempotent on every input whose normal
form is not the empty string (absent input included); it maps the spec's
example to its canonical form and absent input to null. -/
theorem C6_normalizarDevEui_amended :
    (∀ raw : Option String, normalizarDevEui raw ≠ some "" →
        normalizarDevEui (normalizarDevEui raw) = normalizarDevEui raw) ∧
    normalizarDevEui (some "70:b3:d5:7e:d0:03:ab:cd") = some "70B3D57ED003ABCD" ∧
    normalizarDevEui none = none := by
  refine ⟨?_, by decide, rfl⟩
  intro raw hne
  match raw with
  | none => rfl
  | some s =>
    by_cases hs : s = ""
    · subst hs
      rfl
    · have h1 : normalizarDevEui (some s) = some (String.mk (hexFilter s.data)) := by
        simp only [normalizarDevEui]
        rw [if_neg hs]
      rw [h1] at hne ⊢
      have ht : String.mk (hexFilter s.data) ≠ "" := fun h => hne (by rw [h])
      simp only [normalizarDevEui]
      rw [if_neg ht]
      show some (String.mk (hexFilter (hexFilter s.data))) = some (String.mk (hexFilter s.data))
      rw [hexFilter_idem]

/-- Closed instance of the amended C6 idempotence at a concrete input. -/
theorem C6_normalizarDevEui_amended_witness :
    normalizarDevEui (normalizarDevEui (some "ab:cd")) = normalizarDevEui (some "ab:cd") :=
  C6_normalizarDevEui_amended.1 (some "ab:cd") (by decide)

/- ### Data model: the `sensores` and `mediciones` tables -/

/-- One row of the `sensores` table.  Nullable columns are `Option`s; the
columns are the ones touched by the core endpoints (`updated_at` is kept as
an abstract tick supplied by the caller in place of `NOW()`). -/
structure Sensor where
  id_sensor : Nat
  nombre_sensor : String
  id_granja : Option Nat
  dev_eui : Option String
  modelo : Option String
  area : Option String
  zona : Option String
  sala : Option String
  modo : Option String
  umbral_ith : Option Int
  app_id : Option String
  device_id : Option String
  dev_id : Option String
  updated_at : Nat
  deriving DecidableEq, Repr

/-- One row of the `mediciones` table.  The cache/early webhook variants
insert rows with no `id_sensor`, hence the `Option`; values are stored as
the JavaScript values that arrived (the column types accept them). -/
structure Medicion where
  id_sensor : Option Nat
  temperatura : JSVal
  humedad : JSVal
  ith : JSVal
  deriving DecidableEq, Repr

/-- The relational store: both tables plus the auto-increment counter of
`sensores`. -/
structure DB where
  sensores : List Sensor
  mediciones : List Medicion
  nextId : Nat
  deriving DecidableEq, Repr

/-- MySQL errors the handlers distinguish: `ER_DUP_ENTRY` from the UNIQUE
constraint on `sensores.dev_eui`. -/
inductive DBErr where
  | dupEntry
  deriving DecidableEq, Repr

/-- `SELECT id_sensor FROM sensores WHERE dev_eui = ?` (first match). -/
def findSensorByEui (db : DB) (e : String) : Option Sensor :=
  db.sensores.find? (fun s => s.dev_eui == some e)

/-- Whether inserting a row with non-null `dev_eui = e` violates the UNIQUE
constraint (MySQL permits any number of NULLs). -/
def devEuiTaken (rows : List Sensor) (e : String) : Bool :=
  rows.any (fun s => s.dev_eui == some e)

/-- The row created by
`INSERT INTO sensores (nombre_sensor, dev_eui, id_granja) VALUES ('TTN-'+eui, eui, NULL)`:
placeholder name derived from the EUI, no farm, every other column default
NULL, id from auto-increment. -/
def placeholderSensor (sid : Nat) (devEui : String) : Sensor :=
  { id_sensor := sid, nombre_sensor := "TTN-" ++ devEui, id_granja := none,
    dev_eui := some devEui, modelo := none, area := none, zona := none,
    sala := none, modo := none, umbral_ith := none, app_id := none,
    device_id := none, dev_id := none, updated_at := 0 }

/-- `getOrCreateSensorByDevEui` with an explicit interleaving point: the
`SELECT` runs against snapshot `db1`, the `INSERT` against `db2` (a
concurrent writer may have committed in between).  The sequential execution
is the special case `db1 = db2`.  The function body is exactly the source:
look up, return the id if found, otherwise insert the placeholder row —
there is no handling of a duplicate-insert error, it propagates. -/
def getOrCreateRace (db1 db2 : DB) (devEui : String) : Except DBErr (Nat × DB) :=
  match findSensorByEui db1 devEui with
  | some s => .ok (s.id_sensor, db2)
  | none =>
    if devEuiTaken db2.sensores devEui then .error .dupEntry
    else
      .ok (db2.nextId,
           { db2 with nextId := db2.nextId + 1,
                      sensores := db2.sensores ++ [placeholderSensor db2.nextId devEui] })

/-- `getOrCreateSensorByDevEui` from the validating variant of `server.js`
(sequential execution: both statements see the same store). -/
def getOrCreateSensorByDevEui (db : DB) (devEui : String) : Except DBErr (Nat × DB) :=
  getOrCreateRace db db devEui

/-- C3: resolve-or-create returns the existing Sensor's id and changes
nothing when the EUI is present; otherwise it inserts exactly one placeholder
row (name `TTN-<eui>`, no farm, the given EUI) and returns its fresh id, and
a second call with the same EUI returns that same id and creates nothing. -/
theorem C3_getOrCreateSensorByDevEui_spec :
    ∀ (db : DB) (e : String),
      (∀ s : Sensor, findSensorByEui db e = some s →
          getOrCreateSensorByDevEui db e = .ok (s.id_sensor, db)) ∧
      (findSensorByEui db e = none →
          getOrCreateSensorByDevEui db e =
            .ok (db.nextId,
                 { db with nextId := db.nextId + 1,
                           sensores := db.sensores ++ [placeholderSensor db.nextId e] }) ∧
          getOrCreateSensorByDevEui
              { db with nextId := db.nextId + 1,
                        sensores := db.sensores ++ [placeholderSensor db.nextId e] } e =
            .ok (db.nextId,
                 { db with nextId := db.nextId + 1,
                           sensores := db.sensores ++ [placeholderSensor db.nextId e] })) := by
  intro db e
  constructor
  · intro s hs
    unfold getOrCreateSensorByDevEui getOrCreateRace
    rw [hs]
  · intro hnone
    have htaken : devEuiTaken db.sensores e = false := by
      rw [devEuiTaken, List.any_eq_false]
      intro s hmem
      have := List.find?_eq_none.1 hnone s hmem
      simpa using this
    constructor
    · unfold getOrCreateSensorByDevEui getOrCreateRace
      rw [hnone, htaken]
      simp
    · unfold getOrCreateSensorByDevEui getOrCreateRace
      have hfind : findSensorByEui
          { db with nextId := db.nextId + 1,
                    sensores := db.sensores ++ [placeholderSensor db.nextId e] } e =
          some (placeholderSensor db.nextId e) := by
        rw [findSensorByEui]
        simp only [List.find?_append, hnone]
        rw [findSensorByEui] at hnone
        simp [hnone, List.find?, placeholderSensor]
      rw [hfind]
      rfl

/-- Closed instance of C3 on the empty store with EUI `70B3`. -/
theorem C3_getOrCreateSensorByDevEui_spec_witness :
    getOrCreateSensorByDevEui ⟨[], [], 1⟩ "70B3" =
      .ok (1, ⟨[placeholderSensor 1 "70B3"], [], 2⟩) ∧
    getOrCreateSensorByDevEui ⟨[placeholderSensor 1 "70B3"], [], 2⟩ "70B3" =
      .ok (1, ⟨[placeholderSensor 1 "70B3"], [], 2⟩) := by
  have h := (C3_getOrCreateSensorByDevEui_spec ⟨[], [], 1⟩ "70B3").2 (by rfl)
  exact h

/- ### Webhook ingestion -/

/-- A `POST /webhook` body after JSON parsing: the optional
`end_device_ids.dev_eui` / `end_device_ids.device_id` strings and the
optional `uplink_message.decoded_payload` triple
`(temperatura, humedad, ith)`. -/
structure WebhookBody where
  dev_eui : Option String
  device_id : Option String
  decoded_payload : Option (JSVal × JSVal × JSVal)
  deriving DecidableEq, Repr

/-- Responses of the webhook handlers: 200 `OK`, 400 `Payload invalido`,
400 `Falta dev_eui en el webhook`, 422 out-of-range, 500 database error. -/
inductive WebResp where
  | okOK
  | badPayload
  | badMissingEui
  | unprocessable
  | dbError
  deriving DecidableEq, Repr

/-- The validating `POST /webhook` (second variant of `server.js`) with the
same explicit interleaving point as `getOrCreateRace`: the registry lookup
sees `db1`, every write sees `db2`.  Control flow as in the source: missing
decoded payload → 400, falsy normalized EUI → 400, invalid reading → 422,
then resolve-or-create and insert the measurement; any thrown database
error (in particular `ER_DUP_ENTRY` from the racing insert) is caught by the
single catch-all and reported as the generic 500. -/
def webhookValidatingRace (db1 db2 : DB) (body : WebhookBody) : WebResp × DB :=
  match body.decoded_payload with
  | none => (.badPayload, db2)
  | some (t, h, i) =>
    match jsStr (normalizarDevEui body.dev_eui) with
    | none => (.badMissingEui, db2)
    | some e =>
      if lecturaValida t h i then
        match getOrCreateRace db1 db2 e with
        | .error _ => (.dbError, db2)
        | .ok (sid, db3) =>
          (.okOK, { db3 with mediciones := db3.mediciones ++ [⟨some sid, t, h, i⟩] })
      else (.unprocessable, db2)

/-- The validating `POST /webhook` run sequentially (no interference). -/
def webhookValidating (db : DB) (body : WebhookBody) : WebResp × DB :=
  webhookValidatingRace db db body

/-- The cache variant of `POST /webhook` (first variant of `server.js`):
caches the raw identifier in `lastDevEui`, then inserts the decoded triple
into `mediciones` with **no** sensor reference and **no** validation. -/
def webhookCache (db : DB) (lastDevEui : Option String) (body : WebhookBody) :
    WebResp × DB × Option String :=
  let devEui := jsOrStr body.dev_eui body.device_id
  let cache := match devEui with
    | some e => some e
    | none => lastDevEui
  match body.decoded_payload with
  | none => (.badPayload, db, cache)
  | some (t, h, i) =>
    (.okOK, { db with mediciones := db.mediciones ++ [⟨none, t, h, i⟩] }, cache)

/-- The early `POST /webhook` variant (`src/unnamed/part_000`): inserts the
decoded triple with no sensor reference and no validation. -/
def webhookEarly (db : DB) (body : WebhookBody) : WebResp × DB :=
  match body.decoded_payload with
  | none => (.badPayload, db)
  | some (t, h, i) =>
    (.okOK, { db with mediciones := db.mediciones ++ [⟨none, t, h, i⟩] })

theorem getOrCreateRace_mediciones (db1 db2 : DB) (e : String) (sid : Nat) (db3 : DB)
    (h : getOrCreateRace db1 db2 e = .ok (sid, db3)) :
    db3.mediciones = db2.mediciones := by
  unfold getOrCreateRace at h
  split at h
  · injection h with h2
    cases h2
    rfl
  · split at h
    · exact Except.noConfusion h
    · injection h with h2
      cases h2
      rfl

/-- C7 (counterexample): the cache variant of the webhook stores a
measurement with no sensor reference and values the Reading Validator
rejects, answering 200. -/
theorem C7_webhookCache_counterexample :
    webhookCache ⟨[], [], 1⟩ none
        ⟨some "70B3D57ED003ABCD", none, some (.num 200, .num 50, .num 50)⟩ =
      (.okOK, ⟨[], [⟨none, .num 200, .num 50, .num 50⟩], 1⟩, some "70B3D57ED003ABCD") ∧
    lecturaValida (.num 200) (.num 50) (.num 50) = false := by
  decide

/-- C7 (amended): in the validating webhook variant every measurement of the
resulting store is either pre-existing or carries a resolved sensor id and
values accepted by `lecturaValida`; the cache and early variants do not
validate or associate (see the counterexample). -/
theorem C7_webhookValidating_invariant :
    ∀ (db : DB) (body : WebhookBody) (m : Medicion),
      m ∈ (webhookValidating db body).2.mediciones →
      m ∈ db.mediciones ∨
        ((∃ sid, m.id_sensor = some sid) ∧
          lecturaValida m.temperatura m.humedad m.ith = true) := by
  intro db body m hm
  unfold webhookValidating webhookValidatingRace at hm
  rcases hp : body.decoded_payload with _ | ⟨t, h, i⟩ <;> simp only [hp] at hm
  · exact Or.inl hm
  · rcases he : jsStr (normalizarDevEui body.dev_eui) with _ | e <;> simp only [he] at hm
    · exact Or.inl hm
    · by_cases hv : lecturaValida t h i = true
      · rw [if_pos hv] at hm
        rcases hg : getOrCreateRace db db e with err | ⟨sid, db3⟩ <;> simp only [hg] at hm
        · exact Or.inl hm
        · rw [getOrCreateRace_mediciones db db e sid db3 hg] at hm
          simp only [List.mem_append, List.mem_singleton] at hm
          rcases hm with hm | hm
          · exact Or.inl hm
          · subst hm
            exact Or.inr ⟨⟨sid, rfl⟩, hv⟩
      · rw [if_neg hv] at hm
        exact Or.inl hm

/-- Closed instance of the amended C7 invariant: the measurement the
validating webhook inserts for a fresh EUI carries the new sensor id and
validated values. -/
theorem C7_webhookValidating_invariant_witness :
    (⟨some 1, .num 25, .num 60, .num 70⟩ : Medicion) ∈ ([] : List Medicion) ∨
      ((∃ sid, (some 1 : Option Nat) = some sid) ∧
        lecturaValida (.num 25) (.num 60) (.num 70) = true) :=
  C7_webhookValidating_invariant ⟨[], [], 1⟩
    ⟨some "70:b3", none, some (.num 25, .num 60, .num 70)⟩
    ⟨some 1, .num 25, .num 60, .num 70⟩ (by decide)

/-- C8 (counterexample): when a concurrent insert of the same EUI lands
between the registry lookup and its insert, the losing caller does not treat
the duplicate as "already registered" and does not return the existing id 1:
the duplicate-insert error propagates and the webhook request fails with the
generic 500 storage error. -/
theorem C8_getOrCreateRace_counterexample :
    getOrCreateRace ⟨[], [], 1⟩ ⟨[placeholderSensor 1 "70B3"], [], 2⟩ "70B3" =
      .error .dupEntry ∧
    webhookValidatingRace ⟨[], [], 1⟩ ⟨[placeholderSensor 1 "70B3"], [], 2⟩
        ⟨some "70B3", none, some (.num 25, .num 60, .num 70)⟩ =
      (.dbError, ⟨[placeholderSensor 1 "70B3"], [], 2⟩) :=
  ⟨rfl, rfl⟩

/-- C8 (amended): under a first-sight race the uniqueness constraint turns
the losing insert into an `ER_DUP_ENTRY` failure which the registry does not
catch: `getOrCreateRace` surfaces the duplicate error, and the validating
webhook's catch-all reports it as the transient 500 storage error (the
upstream sender may retry the whole request); no in-process lookup retry
occurs. -/
theorem C8_race_error_propagates :
    ∀ (db1 db2 : DB) (e : String) (body : WebhookBody) (t h i : JSVal),
      findSensorByEui db1 e = none →
      devEuiTaken db2.sensores e = true →
      getOrCreateRace db1 db2 e = .error .dupEntry ∧
      (body.decoded_payload = some (t, h, i) →
        jsStr (normalizarDevEui body.dev_eui) = some e →
        lecturaValida t h i = true →
        webhookValidatingRace db1 db2 body = (.dbError, db2)) := by
  intro db1 db2 e body t h i hn ht
  have hrace : getOrCreateRace db1 db2 e = .error .dupEntry := by
    unfold getOrCreateRace
    simp only [hn]
    rw [if_pos ht]
  refine ⟨hrace, ?_⟩
  intro hp he hv
  unfold webhookValidatingRace
  simp only [hp, he]
  rw [if_pos hv]
  simp only [hrace]

/-- Closed instance of the amended C8 on a concrete race. -/
theorem C8_race_error_propagates_witness :
    getOrCreateRace ⟨[], [], 5⟩ ⟨[placeholderSensor 3 "AABB"], [], 5⟩ "AABB" =
      .error .dupEntry ∧
    webhookValidatingRace ⟨[], [], 5⟩ ⟨[placeholderSensor 3 "AABB"], [], 5⟩
        ⟨some "AA:BB", none, some (.num 30, .num 50, .num 60)⟩ =
      (.dbError, ⟨[placeholderSensor 3 "AABB"], [], 5⟩) := by
  have h := C8_race_error_propagates ⟨[], [], 5⟩ ⟨[placeholderSensor 3 "AABB"], [], 5⟩ "AABB"
      ⟨some "AA:BB", none, some (.num 30, .num 50, .num 60)⟩ (.num 30) (.num 50) (.num 60)
      (by decide) (by decide)
  exact ⟨h.1, h.2 (by decide) (by decide) (by decide)⟩

/- ### Sensor metadata update endpoints -/

/-- SQL `COALESCE(?, col)`: a null parameter leaves the column as it was. -/
def coalesce {α : Type} (p old : Option α) : Option α :=
  match p with
  | some v => some v
  | none => old

/-- SQL `NULLIF(?, '')` applied to a nullable string parameter: the empty
string becomes NULL, everything else (including NULL) is unchanged. -/
def nullifEmpty (p : Option String) : Option String :=
  match p with
  | some s => if s = "" then none else some s
  | none => none

/-- Body of `PUT /api/sensores/actualizar` (transactional variant at the end
of `server.js`). -/
structure UpdateBody where
  id_sensor : Option Nat
  dev_eui : Option String
  modelo : Option String
  area : Option String
  zona : Option String
  sala : Option String
  modo : Option String
  umbral_ith : Option Int
  dev_id : Option String
  deriving DecidableEq, Repr

/-- The SET clause of the transactional variant's field UPDATE:
`modelo = COALESCE(?, modelo), area = COALESCE(?, area), zona = COALESCE(?, zona),
sala = COALESCE(?, sala), modo = COALESCE(?, modo), umbral_ith = ?,
dev_id = COALESCE(?, dev_id), updated_at = NOW()`, every parameter passed
as `x ?? null`.  Note `umbral_ith` is written verbatim, null included. -/
def applyFieldsTx (b : UpdateBody) (now : Nat) (s : Sensor) : Sensor :=
  { s with
    modelo := coalesce b.modelo s.modelo,
    area := coalesce b.area s.area,
    zona := coalesce b.zona s.zona,
    sala := coalesce b.sala s.sala,
    modo := coalesce b.modo s.modo,
    umbral_ith := b.umbral_ith,
    dev_id := coalesce b.dev_id s.dev_id,
    updated_at := now }

/-- Rows matched by the back-link UPDATE:
`WHERE id_sensor = ? AND (dev_eui IS NULL OR dev_eui = '')`. -/
def backTgt (i : Nat) (s : Sensor) : Bool :=
  s.id_sensor == i && (s.dev_eui == none || s.dev_eui == some "")

/-- Whether executing the back-link UPDATE (setting `dev_eui = e` on every
`backTgt` row) violates the UNIQUE constraint on `dev_eui`: either two
matched rows would both receive `e`, or some unmatched row already holds
`e`. -/
def backlinkDup (rows : List Sensor) (i : Nat) (e : String) : Bool :=
  decide (2 ≤ (rows.filter (backTgt i)).length) ||
    (rows.any (backTgt i) && rows.any (fun s => ! backTgt i s && s.dev_eui == some e))

/-- Responses of the update endpoints: 200 `{ok, affected}` (transactional),
200 `{ok: true}` (EUI-only), 400, 404, 409 `dev_eui_duplicado`, 500. -/
inductive UpdResp where
  | okAffected (affected : Nat)
  | okTrue
  | badRequest
  | notFound
  | conflict409
  | dbError
  deriving DecidableEq, Repr

/-- The field UPDATE keyed by id: every row with the requested id gets the
SET clause applied. -/
def fieldUpdateById (b : UpdateBody) (now : Nat) (i : Nat) (rows : List Sensor) : List Sensor :=
  rows.map (fun s => if s.id_sensor == i then applyFieldsTx b now s else s)

/-- The field UPDATE keyed by EUI (`WHERE dev_eui = ?`). -/
def fieldUpdateByEui (b : UpdateBody) (now : Nat) (e : String) (rows : List Sensor) : List Sensor :=
  rows.map (fun s => if s.dev_eui == some e then applyFieldsTx b now s else s)

/-- The back-link UPDATE: set `dev_eui = e` on every `backTgt` row. -/
def backlinkApply (i : Nat) (e : String) (rows : List Sensor) : List Sensor :=
  rows.map (fun s => if backTgt i s then { s with dev_eui := some e } else s)

/-- `PUT /api/sensores/actualizar`, transactional variant: 400 when neither
key is truthy; otherwise, inside one transaction, the field UPDATE keyed by
id (preferred) or EUI, then — when both keys were supplied — the back-link
UPDATE guarded by `dev_eui IS NULL OR dev_eui = ''`; a uniqueness violation
raises `ER_DUP_ENTRY`, which rolls the transaction back (the store reverts
to its initial state) and answers 409; otherwise commit and answer the
matched-row count. -/
def actualizarTx (db : DB) (now : Nat) (b : UpdateBody) : UpdResp × DB :=
  match jsNat b.id_sensor, jsStr b.dev_eui with
  | none, none => (.badRequest, db)
  | some i, euiOpt =>
    match euiOpt with
    | none =>
      (.okAffected (db.sensores.filter (fun s => s.id_sensor == i)).length,
       { db with sensores := fieldUpdateById b now i db.sensores })
    | some e =>
      if backlinkDup (fieldUpdateById b now i db.sensores) i e then (.conflict409, db)
      else
        (.okAffected (db.sensores.filter (fun s => s.id_sensor == i)).length,
         { db with sensores := backlinkApply i e (fieldUpdateById b now i db.sensores) })
  | none, some e =>
    (.okAffected (db.sensores.filter (fun s => s.dev_eui == some e)).length,
     { db with sensores := fieldUpdateByEui b now e db.sensores })

/-- Body of the EUI-only `PUT /api/sensores/actualizar` (first variant of
`server.js`). -/
structure UpdateBodyE where
  dev_eui : Option String
  modelo : Option String
  area : Option String
  zona : Option String
  sala : Option String
  modo : Option String
  umbral_ith : Option Int
  deriving DecidableEq, Repr

/-- SET clause of the EUI-only variant:
`modelo = COALESCE(NULLIF(?, ''), modelo), area = COALESCE(NULLIF(?, ''), area),
zona = COALESCE(?, zona), sala = COALESCE(NULLIF(?, ''), sala),
modo = COALESCE(NULLIF(?, ''), modo), umbral_ith = COALESCE(?, umbral_ith),
updated_at = NOW()`.  Here the threshold is merged, not written verbatim. -/
def applyFieldsE (b : UpdateBodyE) (now : Nat) (s : Sensor) : Sensor :=
  { s with
    modelo := coalesce (nullifEmpty b.modelo) s.modelo,
    area := coalesce (nullifEmpty b.area) s.area,
    zona := coalesce b.zona s.zona,
    sala := coalesce (nullifEmpty b.sala) s.sala,
    modo := coalesce (nullifEmpty b.modo) s.modo,
    umbral_ith := coalesce b.umbral_ith s.umbral_ith,
    updated_at := now }

/-- The EUI-only `PUT /api/sensores/actualizar`: requires `dev_eui`
(trimmed, uppercased), locates the first row with non-null EUI matching
under `UPPER(TRIM(...))`, 404 if none, then applies the merge UPDATE by the
found row's id. -/
def actualizarEuiOnly (db : DB) (now : Nat) (b : UpdateBodyE) : UpdResp × DB :=
  match jsStr b.dev_eui with
  | none => (.badRequest, db)
  | some de =>
    match db.sensores.find? (fun s =>
      match s.dev_eui with
      | some e2 => jsTrimUpper e2 == jsTrimUpper de
      | none => false) with
    | none => (.notFound, db)
    | some row =>
      (.okTrue,
       { db with sensores := db.sensores.map (fun s => if s.id_sensor == row.id_sensor then applyFieldsE b now s else s) })

/-- C1: with both an internal id and a device EUI supplied, if the matched
Sensor's EUI column is empty while another Sensor already owns the supplied
EUI, the back-link UPDATE inside the transaction violates uniqueness: the
handler rolls the whole transaction back — the resulting store is exactly
the initial one, so zero field mutations persist — and answers the distinct
409 duplicate-identity error instead of a generic database error. -/
theorem C1_actualizarTx_dup_rollback :
    ∀ (db : DB) (now : Nat) (b : UpdateBody) (i : Nat) (e : String) (s other : Sensor),
      jsNat b.id_sensor = some i →
      jsStr b.dev_eui = some e →
      s ∈ db.sensores → s.id_sensor = i → (s.dev_eui = none ∨ s.dev_eui = some "") →
      other ∈ db.sensores → other.id_sensor ≠ i → other.dev_eui = some e →
      actualizarTx db now b = (.conflict409, db) := by
  intro db now b i e s other hid heui hsmem hsid hsempty homem hoid hoeui
  have hmem1 : applyFieldsTx b now s ∈ fieldUpdateById b now i db.sensores := by
    unfold fieldUpdateById
    have h0 := List.mem_map_of_mem
      (fun s => if s.id_sensor == i then applyFieldsTx b now s else s) hsmem
    simpa [hsid] using h0
  have hb1 : backTgt i (applyFieldsTx b now s) = true := by
    unfold backTgt applyFieldsTx
    rcases hsempty with hh | hh <;> simp [hsid, hh]
  have hmem2 : other ∈ fieldUpdateById b now i db.sensores := by
    unfold fieldUpdateById
    have h0 := List.mem_map_of_mem
      (fun s => if s.id_sensor == i then applyFieldsTx b now s else s) homem
    simpa [hoid] using h0
  have hb2 : (! backTgt i other && other.dev_eui == some e) = true := by
    unfold backTgt
    simp [hoid, hoeui]
  have hdup : backlinkDup (fieldUpdateById b now i db.sensores) i e = true := by
    unfold backlinkDup
    have hT : (fieldUpdateById b now i db.sensores).any (backTgt i) = true := by
      rw [List.any_eq_true]
      exact ⟨applyFieldsTx b now s, hmem1, hb1⟩
    have hO : (fieldUpdateById b now i db.sensores).any
        (fun s => ! backTgt i s && s.dev_eui == some e) = true := by
      rw [List.any_eq_true]
      exact ⟨other, hmem2, hb2⟩
    rw [hT, hO]
    simp
  unfold actualizarTx
  simp only [hid, heui]
  rw [if_pos hdup]

/-- Closed instance of C1: sensor 1 has no EUI, sensor 2 owns `AA`; updating
sensor 1 with `dev_eui = AA` answers 409 and leaves the store untouched. -/
theorem C1_actualizarTx_dup_rollback_witness :
    actualizarTx
        ⟨[⟨1, "s1", none, none, none, none, none, none, none, none, none, none, none, 0⟩,
          placeholderSensor 2 "AA"], [], 3⟩ 7
        ⟨some 1, some "AA", none, none, none, none, none, none, none⟩ =
      (.conflict409,
       ⟨[⟨1, "s1", none, none, none, none, none, none, none, none, none, none, none, 0⟩,
         placeholderSensor 2 "AA"], [], 3⟩) :=
  C1_actualizarTx_dup_rollback _ 7 _ 1 "AA"
    ⟨1, "s1", none, none, none, none, none, none, none, none, none, none, none, 0⟩
    (placeholderSensor 2 "AA")
    (by decide) (by decide) (by decide) rfl (Or.inl rfl) (by decide) (by decide) rfl

/-- C2: with both keys supplied, a Sensor whose EUI column is already
populated keeps its original EUI after the call: the update path never
overwrites a populated EUI (the back-link only targets rows whose EUI is
NULL or empty). -/
theorem C2_actualizarTx_never_overwrites_eui :
    ∀ (db : DB) (now : Nat) (b : UpdateBody) (i : Nat) (e : String) (s : Sensor) (e0 : String),
      jsNat b.id_sensor = some i →
      jsStr b.dev_eui = some e →
      s ∈ db.sensores → s.id_sensor = i → s.dev_eui = some e0 → e0 ≠ "" →
      ∃ s2 ∈ (actualizarTx db now b).2.sensores, s2.id_sensor = i ∧ s2.dev_eui = some e0 := by
  intro db now b i e s e0 hid heui hsmem hsid hseui he0
  unfold actualizarTx
  simp only [hid, heui]
  by_cases hdup : backlinkDup (fieldUpdateById b now i db.sensores) i e = true
  · rw [if_pos hdup]
    exact ⟨s, hsmem, hsid, hseui⟩
  · rw [if_neg hdup]
    have hmem1 : applyFieldsTx b now s ∈ fieldUpdateById b now i db.sensores := by
      unfold fieldUpdateById
      have h0 := List.mem_map_of_mem
        (fun s => if s.id_sensor == i then applyFieldsTx b now s else s) hsmem
      simpa [hsid] using h0
    have hb : backTgt i (applyFieldsTx b now s) = false := by
      unfold backTgt applyFieldsTx
      simp [hseui, he0]
    have hmem2 : applyFieldsTx b now s ∈ backlinkApply i e (fieldUpdateById b now i db.sensores) := by
      unfold backlinkApply
      have h0 := List.mem_map_of_mem
        (fun s => if backTgt i s then { s with dev_eui := some e } else s) hmem1
      simpa [hb] using h0
    exact ⟨applyFieldsTx b now s, hmem2, hsid, hseui⟩

/-- Closed instance of C2: sensor 5 already owns `BB`; updating it together
with a different EUI `CC` leaves a row with id 5 and EUI `BB` in the store. -/
theorem C2_actualizarTx_never_overwrites_eui_witness :
    ∃ s2 ∈ (actualizarTx ⟨[placeholderSensor 5 "BB"], [], 6⟩ 7
        ⟨some 5, some "CC", none, none, none, none, none, none, none⟩).2.sensores,
      s2.id_sensor = 5 ∧ s2.dev_eui = some "BB" :=
  C2_actualizarTx_never_overwrites_eui _ 7 _ 5 "CC" (placeholderSensor 5 "BB") "BB"
    (by decide) (by decide) (by decide) rfl rfl (by decide)

/-- C4 (counterexample): in the EUI-only update variant the alert threshold
is **not** written verbatim: `umbral_ith = COALESCE(?, umbral_ith)`, so a
null threshold parameter leaves the stored value 75 in place (the claim
requires the column to become null), while the timestamp is refreshed. -/
theorem C4_actualizarEuiOnly_counterexample :
    actualizarEuiOnly
        ⟨[⟨1, "s1", none, some "AA", none, none, none, none, none, some 75, none, none, none, 0⟩],
         [], 2⟩ 9
        ⟨some "AA", none, none, none, none, none, none⟩ =
      (.okTrue,
       ⟨[⟨1, "s1", none, some "AA", none, none, none, none, none, some 75, none, none, none, 9⟩],
        [], 2⟩) ∧
    (some (75 : Int) : Option Int) ≠ none := by
  exact ⟨by decide, by decide⟩

/-- C4 (amended): in both update variants, every mutable field supplied as
null leaves its column unchanged and the timestamp is always refreshed; the
alert threshold is written verbatim (null included) **only** in the
transactional variant — in the EUI-only variant it follows the same merge
semantics as the other fields; the transactional endpoint applies exactly
this SET clause to the rows matched by id. -/
theorem C4_update_merge_semantics :
    (∀ (b : UpdateBody) (now : Nat) (s : Sensor),
      (applyFieldsTx b now s).umbral_ith = b.umbral_ith ∧
      (applyFieldsTx b now s).updated_at = now ∧
      (b.modelo = none → (applyFieldsTx b now s).modelo = s.modelo) ∧
      (b.area = none → (applyFieldsTx b now s).area = s.area) ∧
      (b.zona = none → (applyFieldsTx b now s).zona = s.zona) ∧
      (b.sala = none → (applyFieldsTx b now s).sala = s.sala) ∧
      (b.modo = none → (applyFieldsTx b now s).modo = s.modo)) ∧
    (∀ (b : UpdateBodyE) (now : Nat) (s : Sensor),
      (applyFieldsE b now s).updated_at = now ∧
      (b.umbral_ith = none → (applyFieldsE b now s).umbral_ith = s.umbral_ith) ∧
      (b.modelo = none → (applyFieldsE b now s).modelo = s.modelo) ∧
      (b.area = none → (applyFieldsE b now s).area = s.area) ∧
      (b.zona = none → (applyFieldsE b now s).zona = s.zona) ∧
      (b.sala = none → (applyFieldsE b now s).sala = s.sala) ∧
      (b.modo = none → (applyFieldsE b now s).modo = s.modo)) ∧
    (∀ (db : DB) (now : Nat) (b : UpdateBody) (i : Nat),
      jsNat b.id_sensor = some i → jsStr b.dev_eui = none →
      (actualizarTx db now b).2.sensores =
        db.sensores.map (fun s => if s.id_sensor == i then applyFieldsTx b now s else s)) := by
  refine ⟨?_, ?_, ?_⟩
  · intro b now s
    refine ⟨rfl, rfl, ?_, ?_, ?_, ?_, ?_⟩ <;>
      (intro h; simp [applyFieldsTx, coalesce, h])
  · intro b now s
    refine ⟨rfl, ?_, ?_, ?_, ?_, ?_, ?_⟩ <;>
      (intro h; simp [applyFieldsE, coalesce, nullifEmpty, h])
  · intro db now b i hid heui
    unfold actualizarTx
    simp only [hid, heui]
    rfl

/-- Closed instance of the amended C4 at a concrete body, sensor and store. -/
theorem C4_update_merge_semantics_witness :
    (applyFieldsTx ⟨some 1, none, none, none, none, none, some "manual", none, none⟩ 9
        ⟨1, "s1", none, none, some "m", some "a", some "z", some "r", some "auto", some 70,
         none, none, none, 0⟩).modelo = some "m" ∧
    (applyFieldsE ⟨some "AA", none, none, none, none, none, none⟩ 9
        ⟨1, "s1", none, some "AA", none, none, none, none, none, some 75, none, none, none,
         0⟩).umbral_ith = some 75 ∧
    (actualizarTx ⟨[⟨1, "s1", none, none, some "m", some "a", some "z", some "r", some "auto",
          some 70, none, none, none, 0⟩], [], 2⟩ 9
        ⟨some 1, none, none, none, none, none, some "manual", none, none⟩).2.sensores =
      List.map
        (fun s => if s.id_sensor == 1
          then applyFieldsTx ⟨some 1, none, none, none, none, none, some "manual", none, none⟩ 9 s
          else s)
        [⟨1, "s1", none, none, some "m", some "a", some "z", some "r", some "auto", some 70,
          none, none, none, 0⟩] := by
  refine ⟨?_, ?_, ?_⟩
  · exact (C4_update_merge_semantics.1
      ⟨some 1, none, none, none, none, none, some "manual", none, none⟩ 9
      ⟨1, "s1", none, none, some "m", some "a", some "z", some "r", some "auto", some 70,
       none, none, none, 0⟩).2.2.1 rfl
  · exact (C4_update_merge_semantics.2.1
      ⟨some "AA", none, none, none, none, none, none⟩ 9
      ⟨1, "s1", none, some "AA", none, none, none, none, none, some 75, none, none, none,
       0⟩).2.1 rfl
  · exact C4_update_merge_semantics.2.2
      ⟨[⟨1, "s1", none, none, some "m", some "a", some "z", some "r", some "auto", some 70,
         none, none, none, 0⟩], [], 2⟩ 9
      ⟨some 1, none, none, none, none, none, some "manual", none, none⟩ 1
      (by decide) (by decide)

/- ### Downlink relay and health probe -/

/-- Body of `POST /api/downlink`. -/
structure DownBody where
  dev_eui : Option String
  cmd : Option String
  deriving DecidableEq, Repr

/-- Responses of the downlink relay: 400 `faltan_campos`,
404 `sensor_no_encontrado`, 409 `falta_app_o_device_id`,
500 `ttn_api_key_no_configurada`, 502 `ttn_error` with the remote status and
body, 200 `{ok: true}`. -/
inductive DownResp where
  | faltanCampos
  | sensorNoEncontrado
  | faltaAppODeviceId
  | apiKeyNoConfigurada
  | ttnError (status : Nat) (detail : String)
  | okTrue
  deriving DecidableEq, Repr

/-- Row matcher of the downlink SELECT:
`WHERE UPPER(TRIM(dev_eui)) = ?` (a NULL column never matches). -/
def euiRowMatch (eui : String) (s : Sensor) : Bool :=
  match s.dev_eui with
  | some e2 => jsTrimUpper e2 == eui
  | none => false

/-- `POST /api/downlink` from the first variant of `server.js`.  The
external network server's reply to the single outbound `fetch` is supplied
as the parameters `fetchOk`/`fetchStatus`/`fetchText` (it leaves the
system); the Bool in the result records whether that outbound call was made
at all.  Control flow as in the source: falsy `dev_eui` or `cmd` → 400;
no row matching the trimmed-uppercased EUI → 404; falsy `app_id` or
`device_id` → 409 before anything else; missing TTN API key → 500; then
exactly one outbound call, 502 on a non-2xx reply, 200 otherwise. -/
def downlinkHandler (db : DB) (apiKey : Option String) (fetchOk : Bool)
    (fetchStatus : Nat) (fetchText : String) (b : DownBody) : DownResp × Bool :=
  match jsStr b.dev_eui, jsStr b.cmd with
  | some de, some _ =>
    match db.sensores.find? (euiRowMatch (jsTrimUpper de)) with
    | none => (.sensorNoEncontrado, false)
    | some row =>
      if ! truthyStr row.app_id || ! truthyStr row.device_id then (.faltaAppODeviceId, false)
      else
        match jsStr apiKey with
        | none => (.apiKeyNoConfigurada, false)
        | some _ =>
          if fetchOk then (.okTrue, true) else (.ttnError fetchStatus fetchText, true)
  | _, _ => (.faltanCampos, false)

/-- C9: when the matched Sensor misses either half of its network-server
addressing pair, the downlink relay answers the 409 configuration error and
makes no outbound call, whatever the API key and the (unreached) network
server would have replied. -/
theorem C9_downlink_missing_addressing :
    ∀ (db : DB) (apiKey : Option String) (fOk : Bool) (fSt : Nat) (fTx : String)
      (b : DownBody) (de cmd : String) (row : Sensor),
      jsStr b.dev_eui = some de →
      jsStr b.cmd = some cmd →
      db.sensores.find? (euiRowMatch (jsTrimUpper de)) = some row →
      (truthyStr row.app_id = false ∨ truthyStr row.device_id = false) →
      downlinkHandler db apiKey fOk fSt fTx b = (.faltaAppODeviceId, false) := by
  intro db apiKey fOk fSt fTx b de cmd row hde hcmd hrow hmiss
  unfold downlinkHandler
  simp only [hde, hcmd, hrow]
  rw [if_pos]
  rcases hmiss with h | h <;> simp [h]

/-- Closed instance of C9: the placeholder sensor for EUI `AA` (no
addressing pair) makes the relay answer 409 without calling the network
server. -/
theorem C9_downlink_missing_addressing_witness :
    downlinkHandler ⟨[placeholderSensor 1 "AA"], [], 2⟩ (some "key") true 200 "body"
        ⟨some "aa", some "ON"⟩ =
      (.faltaAppODeviceId, false) :=
  C9_downlink_missing_addressing ⟨[placeholderSensor 1 "AA"], [], 2⟩ (some "key") true 200 "body"
    ⟨some "aa", some "ON"⟩ "aa" "ON" (placeholderSensor 1 "AA")
    (by decide) (by decide) (by decide) (Or.inl (by decide))

/-- Responses of `GET /health`. -/
inductive HealthResp where
  | okTrue
  | err500
  deriving DecidableEq, Repr

/-- `GET /health`: `getConnection` then `ping` inside the try block;
`conn.release()` is the next statement after `ping`, so it runs only when
both succeed, and the catch block answers 500 without releasing.
`acquireOk`/`pingOk` say whether each step throws; the Bool in the result
records whether `conn.release()` ran. -/
def healthHandler (acquireOk pingOk : Bool) : HealthResp × Bool :=
  if acquireOk then
    if pingOk then (.okTrue, true) else (.err500, false)
  else (.err500, false)

/-- C10: the pooled connection is released only on the success path; in
particular, when `ping` fails after the connection was acquired the handler
answers 500 with the connection never released back to the pool. -/
theorem C10_health_connection_leak :
    healthHandler true false = (.err500, false) ∧
    (∀ a p : Bool, (healthHandler a p).2 = true ↔ a = true ∧ p = true) := by
  exact ⟨rfl, by decide⟩
